import Mathlib

/-!
Verification of the HIV-os pharmacy-claim service core (src/main.py).

The four operations under study are embedded as pure Lean functions:

* `identificacion_ciclo` — the treatment-cycle classifier (a hardcoded
  decision table over the (troquel, socio_id) string pair);
* `agente_sustitutor` — the substitution-table lookup, parameterised by the
  table state (the PostgreSQL table `tablasustitucion_hiv` is external, so
  it is passed as a list of rows; the SQL `SELECT ... WHERE codigo = %s`
  with `fetchone()` is embedded as `List.find?` on that list);
* `check_hiv_medication` — the HIV-registry membership check, parameterised
  by the registry contents (the table `medicamentos_HIV.csv` is external);
* `obtener_recetas_ticket` — recipe lookup by ticket, over the in-source
  mock dictionary `MOCK_RECETAS_DB`.

Database columns that PostgreSQL may return as integers, text or NULL are
modelled with `SqlValue`; the Python `==` comparison against the literal `1`
is `pyEqIntOne`.  the Python substring test `a in b` on strings is `pyIn`.
HTTP failures (`HTTPException(status_code=..., detail=...)`) are modelled
as an error value carried by `Except`.
-/

namespace HivOs

/-- An HTTP error raised by an endpoint: `HTTPException(status_code, detail)`. -/
structure HTTPException where
  status_code : Nat
  detail : String
deriving DecidableEq, Repr

/-- One prescription record (`Receta` pydantic model in src/main.py). -/
structure Receta where
  troquel : String
  codigo : String
  monodroga : String
  descripcion : String
deriving DecidableEq, Repr

/-- The value stored per ticket in `MOCK_RECETAS_DB`: owning member id and
recipe list. -/
structure TicketData where
  socio : String
  recetas : List Receta
deriving DecidableEq, Repr

/-- The mock recipe store of src/main.py (lines 92-141), keyed by ticket id. -/
def MOCK_RECETAS_DB : List (String × TicketData) :=
  [ ("1000073123",
     { socio := "61134592601",
       recetas := [⟨"45282", "18000", "ABACAVIR/LAMIVUDINA",
                    "ABACAVIR/LAMIVUDINA 600/300 MG"⟩] }),
    ("1000073124",
     { socio := "62245693702",
       recetas := [⟨"18001", "18001", "EFAVIRENZ", "EFAVIRENZ 600 MG"⟩] }),
    ("1000073125",
     { socio := "63356704803",
       recetas := [⟨"2039", "3002", "IBUPROFENO", "IBUPROFENO 400 MG"⟩] }),
    ("1000073199",
     { socio := "62245693702",
       recetas := [⟨"21955", "21955", "3 TC COMPLEX", "3 TC COMPLEX 600 MG"⟩] }) ]

/-- The JSON object returned by `/identificacion_ciclo`. -/
structure CicloResponse where
  ciclo : String
  codigo : Nat
deriving DecidableEq, Repr

/-- The cycle classifier of src/main.py lines 208-234: a hardcoded decision
table on the (troquel, socio_id) pair, first match wins. -/
def identificacion_ciclo (troquel socio_id : String) : CicloResponse :=
  if troquel = "45282" ∧ socio_id = "61134592601" then
    { ciclo := "Inicio de tratamiento", codigo := 1 }
  else if troquel = "18001" ∧ socio_id = "62245693702" then
    { ciclo := "Renovación", codigo := 2 }
  else if troquel = "23523" ∧ socio_id = "62245693702" then
    { ciclo := "Renovación", codigo := 2 }
  else
    { ciclo := "Indeterminado", codigo := 3 }

/-- Modelled from the spec: the history relationship of §4.4 rule 2 — a prior
`DispensingEvent` exists for this member for the same code (the clinical-equivalence test restricted to its "same code" arm; the troquel and
codigo fields of each stored recipe are both code identifiers, so either
matching counts).  No function in src computes this; the spec asserts how the
verdicts of the classifier relate to it. -/
def hasSameCodeHistory (db : List (String × TicketData))
    (troquel socio : String) : Bool :=
  db.any fun p =>
    p.2.socio == socio &&
      p.2.recetas.any fun r => r.troquel == troquel || r.codigo == troquel

/-- A value read from a PostgreSQL column: an integer, a text value, or NULL.
(The `sustituye` column is used with values 0/1 in the doc string of the source;
the model also admits text and NULL to cover malformed rows.) -/
inductive SqlValue where
  | int (i : Int)
  | str (s : String)
  | null
deriving DecidableEq, Repr

/-- the Python `v == 1` where `1` is the integer literal: true exactly on the
integer 1; `0 == 1`, `None == 1` and `"1" == 1` are all `False` in Python. -/
def pyEqIntOne : SqlValue → Bool
  | SqlValue.int i => i == 1
  | _ => false

/-- One row of the substitution table `tablasustitucion_hiv`, as selected by
`agente_sustitutor`: columns `codigo`, `sustituye`, `codigoSustituible`. -/
structure SubstRow where
  codigo : String
  sustituye : SqlValue
  codigoSustituible : Option String
deriving DecidableEq, Repr

/-- The JSON object returned by `/agente_sustitutor`
(`SustitucionResponse`; `codigo_sustituto` defaults to `None`). -/
structure SustitucionResponse where
  troquel : String
  codigo_original : String
  es_sustituible : Bool
  mensaje : String
  codigo_sustituto : Option String := none
deriving DecidableEq, Repr

/-- Rendering of an `Option String` inside a Python f-string (`None` prints
as the text `None`). -/
def pyShowOpt : Option String → String
  | some s => s
  | none => "None"

/-- The SQL query of `agente_sustitutor`:
`SELECT "codigo", "sustituye", "codigoSustituible" FROM tablasustitucion_hiv
WHERE "codigo" = %s` followed by `fetchone()` — the first matching row, if
any.  A SELECT reads the table and leaves it unchanged, so the returned
state is the input table. -/
def dbSelectFirst (table : List SubstRow) (troquel : String) :
    Option SubstRow × List SubstRow :=
  (table.find? fun r => r.codigo == troquel, table)

/-- The substitution resolver of src/main.py lines 236-286, with the table
state threaded explicitly: no row → `HTTPException 404`; `sustituye == 1` →
substitutable with `codigo_sustituto` from the row; otherwise not
substitutable (`codigo_sustituto` keeps its `None` default).  The second
component is the table state after the call. -/
def agente_sustitutor_st (table : List SubstRow) (troquel : String) :
    Except HTTPException SustitucionResponse × List SubstRow :=
  let q := dbSelectFirst table troquel
  match q.1 with
  | none =>
    (Except.error ⟨404, "Troquel \x27" ++ troquel ++
        "\x27 no encontrado en la tabla de sustitución"⟩, q.2)
  | some row =>
    if pyEqIntOne row.sustituye then
      (Except.ok
        { troquel := troquel
          codigo_original := row.codigo
          es_sustituible := true
          mensaje := "El medicamento es sustituible. Código original \x27" ++
            row.codigo ++ "\x27 se sustituye por \x27" ++
            pyShowOpt row.codigoSustituible ++ "\x27"
          codigo_sustituto := row.codigoSustituible }, q.2)
    else
      (Except.ok
        { troquel := troquel
          codigo_original := row.codigo
          es_sustituible := false
          mensaje := "El medicamento con código \x27" ++ row.codigo ++
            "\x27 no es sustituible" }, q.2)

/-- The response of `/agente_sustitutor` (the value component of
`agente_sustitutor_st`). -/
def agente_sustitutor (table : List SubstRow) (troquel : String) :
    Except HTTPException SustitucionResponse :=
  (agente_sustitutor_st table troquel).1

/-- Modelled from the spec: the substitution table `tablasustitucion_hiv` is
an external PostgreSQL table whose contents are not in src/.  Spec scenario C
says "substitution rule exists mapping a prior code to 23523", and the mock
ticket 1000073199 holds the prior code 21955 for the same member, so the
modelled table carries the single rule 21955 → 23523 with `sustituye = 1`. -/
def MOCK_SUSTITUCION_DB : List SubstRow :=
  [⟨"21955", SqlValue.int 1, some "23523"⟩]

/-- Modelled from the spec: the substitution relationship of §4.4 rule 3 —
the code "appears as an original or substitute code with es_sustituible =
true" in the Substitution Table "for the history of this member", i.e. some
substitutable rule names the code as original or as target and the original code of the rule occurs in the dispensing history of the member. -/
def hasSubstRelation (table : List SubstRow) (db : List (String × TicketData))
    (troquel socio : String) : Bool :=
  table.any fun r =>
    pyEqIntOne r.sustituye &&
      (r.codigo == troquel || r.codigoSustituible == some troquel) &&
      hasSameCodeHistory db r.codigo socio

/-- The JSON object returned by `/hiv/check` (`HIVCheckResponse`). -/
structure HIVCheckResponse where
  presentacion : String
  es_hiv : Bool
deriving DecidableEq, Repr

/-- The HIV-registry check of src/main.py lines 173-206, parameterised by the
registry contents (the rows of the external table `medicamentos_HIV.csv`;
the SQL `SELECT EXISTS (... WHERE "Presentacion" = %s)` is membership in
that list).  The source short-circuits: `if presentacion == "23523"` it
returns `es_hiv=True` before touching the registry ("Bypass Mock para caso
sustitución"). -/
def check_hiv_medication (registry : List String)
    (presentacion : String) : HIVCheckResponse :=
  if presentacion = "23523" then
    { presentacion := presentacion, es_hiv := true }
  else
    { presentacion := presentacion, es_hiv := registry.contains presentacion }

/-- the Python substring test `need in hay` on the underlying character lists:
`need` is a prefix of some suffix of `hay`. -/
def pyInAux (need : List Char) : List Char → Bool
  | [] => need.isPrefixOf []
  | c :: t => need.isPrefixOf (c :: t) || pyInAux need t

/-- the Python `need in hay` for strings (substring containment). -/
def pyIn (need hay : String) : Bool :=
  pyInAux need.toList hay.toList

/-- The JSON object returned by `/obtener_recetas_ticket`. -/
structure TicketRecetasResponse where
  id_socio : String
  ticket_id : String
  recetas : List Receta
deriving DecidableEq, Repr

/-- The recipe lookup of src/main.py lines 144-170: 404 when the ticket id is
not a key of `MOCK_RECETAS_DB`; 400 when the stored socio is not a substring
of the supplied socio (`if ticket_data["socio"] not in socio`); otherwise the
stored recipes, with `id_socio` echoing the supplied socio. -/
def obtener_recetas_ticket (db : List (String × TicketData))
    (id socio : String) : Except HTTPException TicketRecetasResponse :=
  match List.lookup id db with
  | none =>
    Except.error ⟨404, "Ticket " ++ id ++ " no encontrado"⟩
  | some ticket_data =>
    if pyIn ticket_data.socio socio then
      Except.ok { id_socio := socio, ticket_id := id,
                  recetas := ticket_data.recetas }
    else
      Except.error ⟨400, "El número de socio no coincide con el ticket"⟩

/-! ### Helper lemmas -/

/-- `pyInAux` decides list containment as a contiguous segment. -/
theorem pyInAux_iff (n h : List Char) : pyInAux n h = true ↔ n <:+: h := by
  induction h with
  | nil =>
    simp [pyInAux, List.isPrefixOf_iff_prefix]
  | cons c t ih =>
    simp [pyInAux, List.isPrefixOf_iff_prefix, ih, List.infix_cons_iff]

/-- `pyIn` decides substring containment on strings. -/
theorem pyIn_iff (n h : String) : pyIn n h = true ↔ n.toList <:+: h.toList :=
  pyInAux_iff n.toList h.toList

/-- `pyEqIntOne` holds exactly on the SQL integer 1. -/
theorem pyEqIntOne_eq_true_iff (v : SqlValue) :
    pyEqIntOne v = true ↔ v = SqlValue.int 1 := by
  cases v <;> simp [pyEqIntOne]

/-! ### Claims -/

/-- C1: the classifier reproduces the concrete scenarios of the spec:
("45282", "61134592601") → Inicio de tratamiento, codigo 1;
("18001", "62245693702") → Renovación, codigo 2;
("23523", "62245693702") → Renovación, codigo 2;
("99999", "00000000000") → Indeterminado, codigo 3. -/
theorem c1_concrete_scenarios :
    identificacion_ciclo "45282" "61134592601" =
      { ciclo := "Inicio de tratamiento", codigo := 1 } ∧
    identificacion_ciclo "18001" "62245693702" =
      { ciclo := "Renovación", codigo := 2 } ∧
    identificacion_ciclo "23523" "62245693702" =
      { ciclo := "Renovación", codigo := 2 } ∧
    identificacion_ciclo "99999" "00000000000" =
      { ciclo := "Indeterminado", codigo := 3 } := by
  decide

/-- C2 counterexample: the pair ("21955", "62245693702") has a prior
dispensing event with the same code in `MOCK_RECETAS_DB` (ticket 1000073199
of member 62245693702 holds troquel 21955), yet `identificacion_ciclo`
returns Indeterminado (codigo 3), not Renovación (codigo 2): a prior
equivalent dispensing event does not force a Renewal verdict. -/
theorem c2_counterexample :
    hasSameCodeHistory MOCK_RECETAS_DB "21955" "62245693702" = true ∧
    (identificacion_ciclo "21955" "62245693702").codigo = 3 ∧
    ¬ (identificacion_ciclo "21955" "62245693702").codigo = 2 := by
  decide

/-- C2 (amended): among pairs with a prior same-code dispensing event in
`MOCK_RECETAS_DB`, the classifier returns Renovación (codigo 2) exactly for
the hardcoded pair ("18001", "62245693702"); other pairs with history may
receive Inicio (codigo 1) or Indeterminado (codigo 3). -/
theorem c2_history_renewal_amended (c m : String)
    (h : hasSameCodeHistory MOCK_RECETAS_DB c m = true) :
    (identificacion_ciclo c m).codigo = 2 ↔ c = "18001" ∧ m = "62245693702" := by
  unfold identificacion_ciclo
  split_ifs with h1 h2 h3
  · obtain ⟨hc, hm⟩ := h1
    subst hc; subst hm
    decide
  · obtain ⟨hc, hm⟩ := h2
    subst hc; subst hm
    decide
  · obtain ⟨hc, hm⟩ := h3
    subst hc; subst hm
    exact absurd h (by decide)
  · constructor
    · intro hcontra
      exact absurd hcontra (by decide)
    · intro hrhs
      exact absurd hrhs h2

/-- Witness for C2 (amended) at ("18001", "62245693702"): the pair has
same-code history and the equivalence yields Renovación (codigo 2). -/
theorem c2_history_renewal_witness :
    (identificacion_ciclo "18001" "62245693702").codigo = 2 :=
  (c2_history_renewal_amended "18001" "62245693702" (by decide)).mpr ⟨rfl, rfl⟩

/-- C3: the classifier is total — it always returns one of the three
verdicts — and any pair with no same-code history in `MOCK_RECETAS_DB` and
no substitution relationship through `MOCK_SUSTITUCION_DB` receives
Indeterminado (codigo 3). -/
theorem c3_total_indeterminate (c m : String) :
    (identificacion_ciclo c m = { ciclo := "Inicio de tratamiento", codigo := 1 } ∨
     identificacion_ciclo c m = { ciclo := "Renovación", codigo := 2 } ∨
     identificacion_ciclo c m = { ciclo := "Indeterminado", codigo := 3 }) ∧
    (hasSameCodeHistory MOCK_RECETAS_DB c m = false →
     hasSubstRelation MOCK_SUSTITUCION_DB MOCK_RECETAS_DB c m = false →
     identificacion_ciclo c m = { ciclo := "Indeterminado", codigo := 3 }) := by
  unfold identificacion_ciclo
  split_ifs with h1 h2 h3
  · obtain ⟨hc, hm⟩ := h1
    subst hc; subst hm
    exact ⟨Or.inl rfl, fun hh _ => absurd hh (by decide)⟩
  · obtain ⟨hc, hm⟩ := h2
    subst hc; subst hm
    exact ⟨Or.inr (Or.inl rfl), fun hh _ => absurd hh (by decide)⟩
  · obtain ⟨hc, hm⟩ := h3
    subst hc; subst hm
    exact ⟨Or.inr (Or.inl rfl), fun _ hs => absurd hs (by decide)⟩
  · exact ⟨Or.inr (Or.inr rfl), fun _ _ => rfl⟩

/-- Witness for C3 at ("99999", "00000000000"): no history, no substitution
relationship, verdict Indeterminado (codigo 3). -/
theorem c3_total_indeterminate_witness :
    identificacion_ciclo "99999" "00000000000" =
      { ciclo := "Indeterminado", codigo := 3 } :=
  (c3_total_indeterminate "99999" "00000000000").2 (by decide) (by decide)

/-- C4: `agente_sustitutor` fails with the 404 NotFound error exactly when
the substitution table holds no row for the requested code; whenever it
fails, the failure is that 404 and the table had no row; and with no row it
never returns a success outcome (in particular never a defaulted
`es_sustituible = false` response). -/
theorem c4_notfound_iff_no_rule (table : List SubstRow) (troquel : String) :
    ((table.find? fun r => r.codigo == troquel) = none →
      agente_sustitutor table troquel =
        Except.error ⟨404, "Troquel \x27" ++ troquel ++
          "\x27 no encontrado en la tabla de sustitución"⟩) ∧
    (∀ e, agente_sustitutor table troquel = Except.error e →
      (table.find? fun r => r.codigo == troquel) = none ∧ e.status_code = 404) ∧
    ((table.find? fun r => r.codigo == troquel) = none →
      ∀ resp, ¬ agente_sustitutor table troquel = Except.ok resp) := by
  cases hf : table.find? fun r => r.codigo == troquel with
  | none =>
    refine ⟨fun _ => ?_, fun e he => ?_, fun _ resp hok => ?_⟩
    · simp [agente_sustitutor, agente_sustitutor_st, dbSelectFirst, hf]
    · simp only [agente_sustitutor, agente_sustitutor_st, dbSelectFirst, hf] at he
      refine ⟨rfl, ?_⟩
      cases he
      rfl
    · simp [agente_sustitutor, agente_sustitutor_st, dbSelectFirst, hf] at hok
  | some row =>
    refine ⟨fun hn => absurd hn (by simp [hf]), fun e he => ?_,
      fun hn => absurd hn (by simp [hf])⟩
    exfalso
    simp only [agente_sustitutor, agente_sustitutor_st, dbSelectFirst, hf] at he
    by_cases hs : pyEqIntOne row.sustituye = true
    · simp [hs] at he
    · simp [Bool.eq_false_iff.mpr hs] at he

/-- Witness for C4 on the empty table and code "99999": no row, the call
returns the 404 error and is not a success. -/
theorem c4_notfound_witness :
    agente_sustitutor [] "99999" =
      Except.error ⟨404, "Troquel \x27" ++ "99999" ++
        "\x27 no encontrado en la tabla de sustitución"⟩ ∧
    ¬ agente_sustitutor [] "99999" =
      Except.ok { troquel := "99999", codigo_original := "99999",
                  es_sustituible := false, mensaje := "" } :=
  ⟨(c4_notfound_iff_no_rule [] "99999").1 rfl,
   (c4_notfound_iff_no_rule [] "99999").2.2 rfl _⟩

/-- C5: when the table holds a row for the code, `agente_sustitutor`
succeeds; with `sustituye = 1` the outcome is substitutable and carries the
target code of the row (`codigoSustituible`), and with any other `sustituye`
the outcome is not substitutable and carries the original code of the row. -/
theorem c5_rule_outcomes (table : List SubstRow) (troquel : String)
    (r : SubstRow) (hf : (table.find? fun x => x.codigo == troquel) = some r) :
    (r.sustituye = SqlValue.int 1 →
      ∃ resp, agente_sustitutor table troquel = Except.ok resp ∧
        resp.es_sustituible = true ∧
        resp.codigo_sustituto = r.codigoSustituible ∧
        resp.codigo_original = r.codigo) ∧
    (¬ r.sustituye = SqlValue.int 1 →
      ∃ resp, agente_sustitutor table troquel = Except.ok resp ∧
        resp.es_sustituible = false ∧
        resp.codigo_original = r.codigo) := by
  constructor
  · intro h1
    have hb : pyEqIntOne r.sustituye = true := (pyEqIntOne_eq_true_iff _).mpr h1
    have heq : agente_sustitutor table troquel = Except.ok
        { troquel := troquel
          codigo_original := r.codigo
          es_sustituible := true
          mensaje := "El medicamento es sustituible. Código original \x27" ++
            r.codigo ++ "\x27 se sustituye por \x27" ++
            pyShowOpt r.codigoSustituible ++ "\x27"
          codigo_sustituto := r.codigoSustituible } := by
      simp [agente_sustitutor, agente_sustitutor_st, dbSelectFirst, hf, hb]
    exact ⟨_, heq, rfl, rfl, rfl⟩
  · intro h2
    have hb : pyEqIntOne r.sustituye = false :=
      Bool.eq_false_iff.mpr fun ht => h2 ((pyEqIntOne_eq_true_iff _).mp ht)
    have heq : agente_sustitutor table troquel = Except.ok
        { troquel := troquel
          codigo_original := r.codigo
          es_sustituible := false
          mensaje := "El medicamento con código \x27" ++ r.codigo ++
            "\x27 no es sustituible" } := by
      simp [agente_sustitutor, agente_sustitutor_st, dbSelectFirst, hf, hb]
    exact ⟨_, heq, rfl, rfl⟩

/-- Witness for C5 on a two-row table: code "111" has `sustituye = 1` with
target "X" and resolves substitutable with `codigo_sustituto = some "X"`;
code "222" has `sustituye = 0` and resolves not substitutable carrying its
original code. -/
theorem c5_rule_outcomes_witness :
    (∃ resp,
      agente_sustitutor
        [⟨"111", SqlValue.int 1, some "X"⟩, ⟨"222", SqlValue.int 0, none⟩]
        "111" = Except.ok resp ∧
      resp.es_sustituible = true ∧ resp.codigo_sustituto = some "X" ∧
      resp.codigo_original = "111") ∧
    (∃ resp,
      agente_sustitutor
        [⟨"111", SqlValue.int 1, some "X"⟩, ⟨"222", SqlValue.int 0, none⟩]
        "222" = Except.ok resp ∧
      resp.es_sustituible = false ∧ resp.codigo_original = "222") :=
  ⟨(c5_rule_outcomes _ "111" ⟨"111", SqlValue.int 1, some "X"⟩ (by decide)).1 rfl,
   (c5_rule_outcomes _ "222" ⟨"222", SqlValue.int 0, none⟩ (by decide)).2
     (by decide)⟩

/-- C8: `agente_sustitutor_st` never mutates the substitution table (its
SELECT-only query returns the table unchanged), and a repeated call on the
state left by a first call returns the identical outcome — the operation is
deterministic and idempotent for a fixed table state. -/
theorem c8_deterministic_idempotent (table : List SubstRow) (troquel : String) :
    (agente_sustitutor_st table troquel).2 = table ∧
    agente_sustitutor_st (agente_sustitutor_st table troquel).2 troquel =
      agente_sustitutor_st table troquel := by
  have h2 : (agente_sustitutor_st table troquel).2 = table := by
    simp only [agente_sustitutor_st, dbSelectFirst]
    cases table.find? fun r => r.codigo == troquel with
    | none => rfl
    | some row =>
      by_cases hs : pyEqIntOne row.sustituye = true
      · simp [hs]
      · simp [Bool.eq_false_iff.mpr hs]
  exact ⟨h2, by rw [h2]⟩

/-- C9: any stored `sustituye` value other than the SQL integer 1 — for
example the integer 0, NULL, or the text value "1" — yields a
non-substitutable outcome, and that outcome carries `codigo_sustituto =
none` even when the `codigoSustituible` column of the row holds a value. -/
theorem c9_nonone_negative (table : List SubstRow) (troquel : String)
    (r : SubstRow) (hf : (table.find? fun x => x.codigo == troquel) = some r)
    (hne : ¬ r.sustituye = SqlValue.int 1) :
    ∃ resp, agente_sustitutor table troquel = Except.ok resp ∧
      resp.es_sustituible = false ∧ resp.codigo_sustituto = none := by
  have hb : pyEqIntOne r.sustituye = false :=
    Bool.eq_false_iff.mpr fun ht => hne ((pyEqIntOne_eq_true_iff _).mp ht)
  have heq : agente_sustitutor table troquel = Except.ok
      { troquel := troquel
        codigo_original := r.codigo
        es_sustituible := false
        mensaje := "El medicamento con código \x27" ++ r.codigo ++
          "\x27 no es sustituible" } := by
    simp [agente_sustitutor, agente_sustitutor_st, dbSelectFirst, hf, hb]
  exact ⟨_, heq, rfl, rfl⟩

/-- Witness for C9 on rows whose `sustituye` is the integer 0, NULL, and the
text "1", each with a populated `codigoSustituible` column: every outcome is
non-substitutable with `codigo_sustituto = none`. -/
theorem c9_nonone_negative_witness :
    (∃ resp, agente_sustitutor [⟨"301", SqlValue.int 0, some "X"⟩] "301" =
      Except.ok resp ∧ resp.es_sustituible = false ∧
      resp.codigo_sustituto = none) ∧
    (∃ resp, agente_sustitutor [⟨"302", SqlValue.null, some "Y"⟩] "302" =
      Except.ok resp ∧ resp.es_sustituible = false ∧
      resp.codigo_sustituto = none) ∧
    (∃ resp, agente_sustitutor [⟨"303", SqlValue.str "1", some "Z"⟩] "303" =
      Except.ok resp ∧ resp.es_sustituible = false ∧
      resp.codigo_sustituto = none) :=
  ⟨c9_nonone_negative _ "301" ⟨"301", SqlValue.int 0, some "X"⟩ (by decide)
      (by decide),
   c9_nonone_negative _ "302" ⟨"302", SqlValue.null, some "Y"⟩ (by decide)
      (by decide),
   c9_nonone_negative _ "303" ⟨"303", SqlValue.str "1", some "Z"⟩ (by decide)
      (by decide)⟩

/-- C6 counterexample: with a registry that does not contain "23523" (here
the empty registry), `check_hiv_medication` still reports `es_hiv = true`
for "23523" — the hardcoded bypass mock overrides registry absence, so
"not present in the registry" does not imply `es_hiv = false`. -/
theorem c6_counterexample :
    ¬ ("23523" ∈ ([] : List String)) ∧
    (check_hiv_medication [] "23523").es_hiv = true := by
  decide

/-- C6 (amended): for every code other than the hardcoded bypass "23523",
absence from the registry yields `es_hiv = false` (a boolean, not an
error); the code "23523" yields `es_hiv = true` regardless of the
registry. -/
theorem c6_registry_absence_amended (registry : List String) (p : String) :
    (¬ p ∈ registry → ¬ p = "23523" →
      (check_hiv_medication registry p).es_hiv = false) ∧
    (p = "23523" → (check_hiv_medication registry p).es_hiv = true) := by
  constructor
  · intro hmem hp
    simp [check_hiv_medication, hp, List.contains, hmem]
  · intro hp
    simp [check_hiv_medication, hp]

/-- Witness for C6 (amended): "99999" is absent from the registry
["18000"] and reports `es_hiv = false`; "23523" reports `es_hiv = true`
on that same registry. -/
theorem c6_registry_absence_witness :
    (check_hiv_medication ["18000"] "99999").es_hiv = false ∧
    (check_hiv_medication ["18000"] "23523").es_hiv = true :=
  ⟨(c6_registry_absence_amended ["18000"] "99999").1 (by decide) (by decide),
   (c6_registry_absence_amended ["18000"] "23523").2 rfl⟩

/-- C7: `obtener_recetas_ticket` fails with 404 when the ticket id is not
in the store; when the ticket exists but the stored member id is not
consistent with the supplied socio (not contained in it as a substring) it
fails with the distinct 400 validation error; and on success it returns the
stored recipe list unchanged. -/
theorem c7_error_modes (db : List (String × TicketData)) (id socio : String) :
    (List.lookup id db = none →
      obtener_recetas_ticket db id socio =
        Except.error ⟨404, "Ticket " ++ id ++ " no encontrado"⟩) ∧
    (∀ t, List.lookup id db = some t →
      (¬ t.socio.toList <:+: socio.toList →
        obtener_recetas_ticket db id socio =
          Except.error ⟨400, "El número de socio no coincide con el ticket"⟩) ∧
      (t.socio.toList <:+: socio.toList →
        obtener_recetas_ticket db id socio =
          Except.ok { id_socio := socio, ticket_id := id,
                      recetas := t.recetas })) := by
  refine ⟨fun hn => ?_, fun t ht => ⟨fun hno => ?_, fun hyes => ?_⟩⟩
  · simp [obtener_recetas_ticket, hn]
  · have hb : pyIn t.socio socio = false :=
      Bool.eq_false_iff.mpr fun htr => hno ((pyIn_iff _ _).mp htr)
    simp [obtener_recetas_ticket, ht, hb]
  · have hb : pyIn t.socio socio = true := (pyIn_iff _ _).mpr hyes
    simp [obtener_recetas_ticket, ht, hb]

/-- Witness for C7 over `MOCK_RECETAS_DB`: an unknown ticket id gives the
404 error; ticket 1000073123 with a non-matching socio gives the 400
error; the same ticket with its owning socio returns the stored recipe
list unchanged. -/
theorem c7_error_modes_witness :
    obtener_recetas_ticket MOCK_RECETAS_DB "0" "61134592601" =
      Except.error ⟨404, "Ticket " ++ "0" ++ " no encontrado"⟩ ∧
    obtener_recetas_ticket MOCK_RECETAS_DB "1000073123" "999" =
      Except.error ⟨400, "El número de socio no coincide con el ticket"⟩ ∧
    obtener_recetas_ticket MOCK_RECETAS_DB "1000073123" "61134592601" =
      Except.ok { id_socio := "61134592601", ticket_id := "1000073123",
                  recetas := [⟨"45282", "18000", "ABACAVIR/LAMIVUDINA",
                               "ABACAVIR/LAMIVUDINA 600/300 MG"⟩] } :=
  ⟨(c7_error_modes MOCK_RECETAS_DB "0" "61134592601").1 (by decide),
   ((c7_error_modes MOCK_RECETAS_DB "1000073123" "999").2
      { socio := "61134592601",
        recetas := [⟨"45282", "18000", "ABACAVIR/LAMIVUDINA",
                     "ABACAVIR/LAMIVUDINA 600/300 MG"⟩] }
      (by decide)).1 (by decide),
   ((c7_error_modes MOCK_RECETAS_DB "1000073123" "61134592601").2
      { socio := "61134592601",
        recetas := [⟨"45282", "18000", "ABACAVIR/LAMIVUDINA",
                     "ABACAVIR/LAMIVUDINA 600/300 MG"⟩] }
      (by decide)).2 (by decide)⟩

/-- C10: member validation in `obtener_recetas_ticket` is substring
containment, not equality — for an existing ticket the request succeeds
exactly when the stored member id occurs as a contiguous substring of the
supplied socio string — and the success response echoes the caller-supplied
socio in `id_socio`. -/
theorem c10_substring_validation (db : List (String × TicketData))
    (id socio : String) (t : TicketData) (ht : List.lookup id db = some t) :
    (t.socio.toList <:+: socio.toList ↔
      ∃ resp, obtener_recetas_ticket db id socio = Except.ok resp) ∧
    (∀ resp, obtener_recetas_ticket db id socio = Except.ok resp →
      resp.id_socio = socio) := by
  cases hb : pyIn t.socio socio with
  | true =>
    have hres : obtener_recetas_ticket db id socio =
        Except.ok { id_socio := socio, ticket_id := id,
                    recetas := t.recetas } := by
      simp [obtener_recetas_ticket, ht, hb]
    constructor
    · exact ⟨fun _ => ⟨_, hres⟩, fun _ => (pyIn_iff _ _).mp hb⟩
    · intro resp hresp
      rw [hres] at hresp
      cases hresp
      rfl
  | false =>
    have hres : obtener_recetas_ticket db id socio =
        Except.error ⟨400, "El número de socio no coincide con el ticket"⟩ := by
      simp [obtener_recetas_ticket, ht, hb]
    constructor
    · constructor
      · intro hin
        exact absurd ((pyIn_iff _ _).mpr hin) (by simp [hb])
      · intro ⟨resp, hresp⟩
        rw [hres] at hresp
        cases hresp
    · intro resp hresp
      rw [hres] at hresp
      cases hresp

/-- Witness for C10: ticket 1000073123 is owned by socio "61134592601";
the supplied string "xx61134592601yy" is not equal to it but contains it,
so the request succeeds and `id_socio` echoes the supplied string. -/
theorem c10_substring_validation_witness :
    ∃ resp, obtener_recetas_ticket MOCK_RECETAS_DB "1000073123"
        "xx61134592601yy" = Except.ok resp ∧
      resp.id_socio = "xx61134592601yy" ∧
      ¬ resp.id_socio = "61134592601" := by
  have h := c10_substring_validation MOCK_RECETAS_DB "1000073123"
    "xx61134592601yy"
    { socio := "61134592601",
      recetas := [⟨"45282", "18000", "ABACAVIR/LAMIVUDINA",
                   "ABACAVIR/LAMIVUDINA 600/300 MG"⟩] } (by decide)
  obtain ⟨resp, hresp⟩ := h.1.mp (by decide)
  refine ⟨resp, hresp, h.2 resp hresp, ?_⟩
  rw [h.2 resp hresp]
  decide

end HivOs
